import Mathlib

/-!
Shallow embedding of the rezervo-web chat client.

Sources:
  src/src/api.js          -- transport adapter (getConfigStatus, sendChat)
  src/src/App.jsx         -- session controller, debounced variant
                             (handleSend with the 1.2s duplicate guard,
                              handleChipClick, resetConversation, composer)
  src/unnamed/part_000    -- session controller, legacy variant
                             (handleSend without the duplicate guard,
                              auto-greeting effect on first load)

State updates that React applies through updater functions are modelled as
sequential pure updates on an explicit state record; the remote endpoint is
an oracle parameter of type RequestBody -> FetchOutcome, and the list of
bodies handed to that oracle is returned alongside the new state so that
theorems can speak about the network calls a step issues.
-/

namespace Rezervo

/-- Recognized fields of a suggestion action (src/src/App.jsx lines 151-185).
JS absence of a string field is modelled as the empty string, which is also
what the JS truthiness tests on those fields distinguish. -/
structure ChipAction where
  clientOnly : Bool := false
  type : String := ""
  group : String := ""
  value : String := ""
  data : List String := []
deriving DecidableEq

/-- A clickable suggestion carried by an assistant message. -/
structure Suggestion where
  title : String := ""
  action : Option ChipAction := none
deriving DecidableEq

/-- A transcript entry: role, text, and an optional suggestion list
(undefined in JS is modelled as none; an empty array is some []). -/
structure ChatMessage where
  role : String := "assistant"
  text : String := ""
  suggestions : Option (List Suggestion) := none
deriving DecidableEq

/-- A toast notification, shape { type, message }. -/
structure ToastMsg where
  type : String
  message : String
deriving DecidableEq

/-- pendingSelections: mapping from group name to the insertion-ordered set
of selected values (JS Set iteration order is insertion order). -/
abbrev Selections := List (String × List String)

/-- The component state of App (src/src/App.jsx): React useState slots,
the lastRequestRef duplicate-suppression ref, and the localStorage slot
for the conversation id. -/
structure AppState where
  conversationId : Option String := none
  storedConversationId : Option String := none
  messages : List ChatMessage := []
  text : String := ""
  sending : Bool := false
  startupError : String := ""
  toast : Option ToastMsg := none
  pendingSelections : Selections := []
  theme : String := "dark"
  started : Bool := false
  lastRequestKey : Option (Option String × Option ChipAction) := none
  lastRequestTs : Nat := 0
deriving DecidableEq

/-- Build-time configuration (src/src/api.js lines 2-3); a missing
environment variable yields the empty string via the JS fallback. -/
structure Config where
  API_URL : String := ""
  ANON_KEY : String := ""
deriving DecidableEq

/-- The JSON body POSTed to the chat endpoint (src/src/App.jsx 115-121). -/
structure RequestBody where
  conversationId : Option String := none
  channel : String := "web"
  locale : String := "en-GB"
  text : Option String := none
  action : Option ChipAction := none
deriving DecidableEq

/-- The messages field of a response: missing, present but not an array,
or an array of messages (src/src/App.jsx line 129). -/
inductive MessagesField where
  | absent
  | nonArray
  | arr (msgs : List ChatMessage)
deriving DecidableEq

/-- Parsed JSON of a successful response; conversationId is the empty
string when the field is missing or empty (both falsy in JS). -/
structure RespData where
  conversationId : String := ""
  messages : MessagesField := .absent
deriving DecidableEq

/-- What the environment does with one fetch: an HTTP response with a
status, raw body text and parsed JSON, or a network-level failure. -/
inductive FetchOutcome where
  | response (status : Nat) (bodyText : String) (json : RespData)
  | failure (message : String)
deriving DecidableEq

/-- The error taxonomy of sendChat (src/src/api.js lines 15-31). -/
inductive ChatError where
  | configError (missing : List String)
  | backendError (status : Nat) (bodyText : String)
  | networkError (message : String)
deriving DecidableEq

/-- JS truthiness filter for an optional string: empty string is falsy. -/
def jsStr : Option String → Option String
  | none => none
  | some t => if t = "" then none else some t

/-- src/src/api.js lines 6-11: list of missing configuration keys. -/
def getConfigStatus (cfg : Config) : List String :=
  (if cfg.API_URL = "" then ["VITE_CHAT_URL"] else []) ++
  (if cfg.ANON_KEY = "" then ["VITE_SUPABASE_ANON_KEY"] else [])

/-- The message of the Error sendChat throws in each failure mode
(src/src/api.js lines 16 and 30), as read back by handleSend. -/
def errorText : ChatError → String
  | .configError missing => "Missing config: " ++ String.intercalate ", " missing
  | .backendError status bodyText =>
      "chat failed: " ++ toString status ++ " " ++ bodyText
  | .networkError m => m

/-- res.ok: HTTP status in the 2xx range. -/
def resOk (status : Nat) : Prop := 200 ≤ status ∧ status ≤ 299

instance (status : Nat) : Decidable (resOk status) := by
  unfold resOk; infer_instance

/-- src/src/api.js lines 13-33: check configuration, then POST once.
Returns the outcome and the list of bodies actually handed to fetch. -/
def sendChat (cfg : Config) (fetch : RequestBody → FetchOutcome)
    (body : RequestBody) : Except ChatError RespData × List RequestBody :=
  if (getConfigStatus cfg).isEmpty then
    match fetch body with
    | .failure m => (.error (.networkError m), [body])
    | .response status bodyText json =>
        if resOk status then (.ok json, [body])
        else (.error (.backendError status bodyText), [body])
  else
    (.error (.configError (getConfigStatus cfg)), [])

/-- src/src/App.jsx lines 79-80: append a user echo bubble. -/
def addUserBubble (ms : List ChatMessage) (title : String) : List ChatMessage :=
  ms ++ [{ role := "user", text := title }]

/-- src/src/App.jsx lines 82-90: clear the suggestion list of the last
message when it is an assistant message that has one. -/
def clearChipsOnLastAssistant (ms : List ChatMessage) : List ChatMessage :=
  match ms.getLast? with
  | none => ms
  | some last =>
      if last.role = "assistant" ∧ last.suggestions.isSome then
        ms.dropLast ++ [{ last with suggestions := none }]
      else ms

/-- src/src/App.jsx lines 106-112: echo the typed text once, skipping the
echo when the last entry is already an identical user echo. -/
def echoStep (ms : List ChatMessage) (pt : Option String) : List ChatMessage :=
  match jsStr pt with
  | none => ms
  | some t =>
      match ms.getLast? with
      | some last =>
          if last.role = "user" ∧ last.text = t then ms
          else ms ++ [{ role := "user", text := t }]
      | none => ms ++ [{ role := "user", text := t }]

/-- src/src/App.jsx lines 115-121: the request body, built from the
conversationId in scope plus the optional text and action. -/
def buildBody (cid : Option String) (pt : Option String)
    (a : Option ChipAction) : RequestBody :=
  { conversationId := jsStr cid
    channel := "web"
    locale := "en-GB"
    text := jsStr pt
    action := a }

/-- The /booking confirmed/i test (src/src/App.jsx line 133), as a
case-insensitive substring occurrence check. -/
def bookingConfirmedIn (t : String) : Bool :=
  2 ≤ (t.toLower.splitOn "booking confirmed").length

/-- src/src/App.jsx lines 125-128: adopt and persist a conversationId the
response carries when it is non-empty and differs from the current one. -/
def adoptConversationId (s : AppState) (d : RespData) : AppState :=
  if d.conversationId ≠ "" ∧ s.conversationId ≠ some d.conversationId then
    { s with conversationId := some d.conversationId
             storedConversationId := some d.conversationId }
  else s

/-- src/src/App.jsx line 129: the messages of a response, defaulting to
the empty list when the field is missing or not an array. -/
def respMsgs (d : RespData) : List ChatMessage :=
  match d.messages with
  | .arr l => l
  | _ => []

/-- src/src/App.jsx lines 132-135: surface a success toast when the last
returned message looks like a booking confirmation. -/
def successToast (s : AppState) (msgs : List ChatMessage) : AppState :=
  match msgs.getLast? with
  | some last =>
      if bookingConfirmedIn last.text then
        { s with toast := some ⟨"success", "Booking confirmed 🎉 Email on the way."⟩ }
      else s
  | none => s

/-- src/src/App.jsx lines 125-135: merge a successful response — adopt a
differing conversationId, append the messages array (defaulting to empty),
and surface a success toast on a booking confirmation. -/
def applySuccess (s : AppState) (d : RespData) : AppState :=
  let s1 := adoptConversationId s d
  successToast { s1 with messages := s1.messages ++ respMsgs d } (respMsgs d)

/-- src/src/App.jsx lines 136-139: convert a thrown error into one
assistant transcript entry plus an error toast. -/
def applyFailure (s : AppState) (e : ChatError) : AppState :=
  { s with
      messages := s.messages ++ [{ role := "assistant", text := errorText e }]
      toast := some ⟨"error", "Network error. Please try again."⟩ }

/-- The duplicate-suppression key of src/src/App.jsx line 97:
JSON.stringify({ t: payloadText || null, a: action || null }). -/
def requestKey (pt : Option String) (a : Option ChipAction) :
    Option String × Option ChipAction :=
  (jsStr pt, a)

/-- The state right after the guards of handleSend: lastRequestRef updated
(line 100), sending set (line 103), the user echo applied (lines 106-112). -/
def postGuardState (s : AppState) (now : Nat) (pt : Option String)
    (a : Option ChipAction) : AppState :=
  { s with
      lastRequestKey := some (requestKey pt a)
      lastRequestTs := now
      sending := true
      messages := echoStep s.messages pt }

/-- src/src/App.jsx lines 95-144 (debounced variant): drop an exact
duplicate inside the 1.2s window, update the ref, reject while sending or
with a startup error, echo, POST, merge the outcome, and in the finally
block leave sending and clear the composer text. -/
def handleSend (cfg : Config) (fetch : RequestBody → FetchOutcome) (now : Nat)
    (s : AppState) (pt : Option String) (a : Option ChipAction) :
    AppState × List RequestBody :=
  if s.lastRequestKey = some (requestKey pt a) ∧ now - s.lastRequestTs < 1200 then
    (s, [])
  else if s.sending = true ∨ s.startupError ≠ "" then
    ({ s with lastRequestKey := some (requestKey pt a), lastRequestTs := now }, [])
  else
    let s1 := postGuardState s now pt a
    let rc := sendChat cfg fetch (buildBody s.conversationId pt a)
    let s2 := match rc.1 with
      | .ok d => applySuccess s1 d
      | .error e => applyFailure s1 e
    ({ s2 with sending := false, text := "" }, rc.2)

/-- src/unnamed/part_000 lines 100-144 (legacy variant): same shape but no
duplicate-suppression ref, and the typed echo goes through addUserBubble
followed by clearChipsOnLastAssistant. -/
def handleSendLegacy (cfg : Config) (fetch : RequestBody → FetchOutcome)
    (s : AppState) (pt : Option String) (a : Option ChipAction) :
    AppState × List RequestBody :=
  if s.sending = true ∨ s.startupError ≠ "" then (s, [])
  else
    let s1 := { s with
      sending := true
      messages := match jsStr pt with
        | some t => clearChipsOnLastAssistant (addUserBubble s.messages t)
        | none => s.messages }
    let rc := sendChat cfg fetch (buildBody s.conversationId pt a)
    let s2 := match rc.1 with
      | .ok d => applySuccess s1 d
      | .error e => applyFailure s1 e
    ({ s2 with sending := false, text := "" }, rc.2)

/-- next[group] read with the JS fallback to an empty set. -/
def lookupGroup (ps : Selections) (g : String) : List String :=
  match ps with
  | [] => []
  | (k, xs) :: rest => if k = g then xs else lookupGroup rest g

/-- Whether the group key is present in the selections object. -/
def hasGroup (ps : Selections) (g : String) : Bool :=
  match ps with
  | [] => false
  | (k, _) :: rest => if k = g then true else hasGroup rest g

/-- Write one group of pendingSelections, keeping every other group. -/
def setGroup (ps : Selections) (g : String) (xs : List String) : Selections :=
  if hasGroup ps g then
    ps.map (fun p => if p.1 = g then (g, xs) else p)
  else
    ps ++ [(g, xs)]

/-- src/src/App.jsx lines 42-51: flip membership of value in the group. -/
def toggleSelection (ps : Selections) (group value : String) : Selections :=
  let cur := lookupGroup ps group
  if cur.contains value then setGroup ps group (cur.filter (· != value))
  else setGroup ps group (cur ++ [value])

/-- src/src/App.jsx lines 52-54: reset one group to an empty set. -/
def clearSelections (ps : Selections) (group : String) : Selections :=
  setGroup ps group []

/-- src/src/App.jsx lines 147-186: dispatch a chip click on the shape of
its action: client-only toggle, submit-cuisines, submit-areas, or the
generic echo-and-POST branch. -/
def handleChipClick (cfg : Config) (fetch : RequestBody → FetchOutcome)
    (now : Nat) (s : AppState) (sugg : Option Suggestion) :
    AppState × List RequestBody :=
  match sugg with
  | none => (s, [])
  | some sg =>
    if s.sending = true ∨ s.startupError ≠ "" then (s, [])
    else
      let a := sg.action.getD {}
      if a.clientOnly = true ∧ a.type = "toggle" ∧ a.group ≠ "" ∧ a.value ≠ "" then
        ({ s with pendingSelections := toggleSelection s.pendingSelections a.group a.value }, [])
      else if a.type = "submit_refine_cuisines" then
        let list := lookupGroup s.pendingSelections "cuisine"
        let title := if list.isEmpty then "No cuisine preference"
          else "Cuisines: " ++ String.intercalate ", " list
        let sA := { s with messages := clearChipsOnLastAssistant (addUserBubble s.messages title) }
        let r := handleSend cfg fetch now sA none (some { type := "refine_set_cuisines", data := list })
        let sB := { r.1 with pendingSelections := clearSelections r.1.pendingSelections "cuisine" }
        ({ sB with started := true }, r.2)
      else if a.type = "submit_refine_areas" then
        let list := lookupGroup s.pendingSelections "area"
        let title := if list.isEmpty then "No area preference"
          else "Areas: " ++ String.intercalate ", " list
        let sA := { s with messages := clearChipsOnLastAssistant (addUserBubble s.messages title) }
        let r := handleSend cfg fetch now sA none (some { type := "refine_set_areas", data := list })
        let sB := { r.1 with pendingSelections := clearSelections r.1.pendingSelections "area" }
        ({ sB with started := true }, r.2)
      else
        let sA := { s with
          messages := clearChipsOnLastAssistant (addUserBubble s.messages sg.title)
          started := true }
        handleSend cfg fetch now sA none (some a)

/-- src/src/App.jsx lines 199-206: clear the persisted conversation id and
started flag, the in-memory id, the transcript and pending selections. -/
def resetConversation (s : AppState) : AppState :=
  { s with
      storedConversationId := none
      conversationId := none
      messages := []
      pendingSelections := []
      started := false }

/-- The user-facing events that can lead to a send. -/
inductive Trigger where
  | typedSubmit
  | chipClick (sugg : Option Suggestion)
  | autoGreeting
deriving DecidableEq

/-- One UI event step. The composer form (src/src/App.jsx lines 319-342)
is rendered with disabled={sending} on its input and submit button and
only when there is no startup error, echoes the trimmed text, then calls
handleSend and clears the input. Chip clicks go through handleChipClick.
The auto-greeting effect (src/unnamed/part_000 lines 71-76) calls the
legacy handleSend with an empty payload when there is no startup error
and no conversation id. -/
def dispatch (cfg : Config) (fetch : RequestBody → FetchOutcome) (now : Nat)
    (s : AppState) : Trigger → AppState × List RequestBody
  | .typedSubmit =>
      if s.sending = true ∨ s.startupError ≠ "" then (s, [])
      else if s.text.trim = "" then (s, [])
      else
        let t := s.text.trim
        let s1 := { s with messages := clearChipsOnLastAssistant (addUserBubble s.messages t) }
        let r := handleSend cfg fetch now s1 (some t) none
        ({ r.1 with text := "" }, r.2)
  | .chipClick sugg => handleChipClick cfg fetch now s sugg
  | .autoGreeting =>
      if s.startupError = "" ∧ s.conversationId = none then
        handleSendLegacy cfg fetch s none none
      else (s, [])

/-- Number of user-role entries of a transcript. -/
def userCount (ms : List ChatMessage) : Nat :=
  (ms.filter (fun m => m.role = "user")).length

/-- The oracle only ever answers with assistant-side messages: no
user-role entry appears in any response body. -/
def oracleNoUserMsgs (fetch : RequestBody → FetchOutcome) : Prop :=
  ∀ b, match fetch b with
    | .response _ _ d =>
        match d.messages with
        | .arr l => ∀ m ∈ l, m.role ≠ "user"
        | _ => True
    | .failure _ => True

/-! Concrete fixtures used by witnesses and counterexamples. -/

/-- A fully present configuration. -/
def cfg0 : Config := { API_URL := "https://example.test/chat", ANON_KEY := "anon" }

/-- A configuration with the endpoint URL missing. -/
def cfgNoUrl : Config := { API_URL := "", ANON_KEY := "anon" }

/-- A backend that answers every request with conversation id c2 and no
messages. -/
def fetchC2 : RequestBody → FetchOutcome :=
  fun _ => .response 200 "" { conversationId := "c2", messages := .arr [] }

/-- A backend that answers 200 with an empty message array and no id. -/
def fetchEmptyOk : RequestBody → FetchOutcome :=
  fun _ => .response 200 "" { conversationId := "", messages := .arr [] }

/-- An unreachable backend. -/
def fetchDown : RequestBody → FetchOutcome :=
  fun _ => .failure "TypeError: Failed to fetch"

/-- A backend that answers HTTP 500 with body boom. -/
def fetchBoom : RequestBody → FetchOutcome :=
  fun _ => .response 500 "boom" { conversationId := "", messages := .absent }

/-- A backend whose successful answer has a non-array messages field. -/
def fetchBadMsgs : RequestBody → FetchOutcome :=
  fun _ => .response 200 "" { conversationId := "", messages := .nonArray }

/-- A client-only toggle chip for an arbitrary group and value. -/
def toggleChip (title group value : String) : Suggestion :=
  { title := title
    action := some { clientOnly := true, type := "toggle", group := group, value := value } }

/-- A client-only cuisine toggle chip. -/
def cuisineChip : Suggestion :=
  { title := "Italian"
    action := some { clientOnly := true, type := "toggle", group := "cuisine", value := "Italian" } }

/-- The submit-cuisines chip. -/
def submitCuisinesChip : Suggestion :=
  { title := "Done", action := some { type := "submit_refine_cuisines" } }

/-- An assistant message carrying suggestion chips. -/
def assistantPrompt : ChatMessage :=
  { role := "assistant", text := "Pick cuisines"
    suggestions := some [cuisineChip, submitCuisinesChip] }

/-- An idle session that already holds conversation id c1. -/
def sBase : AppState :=
  { conversationId := some "c1", storedConversationId := some "c1"
    sending := false, startupError := "", started := true }

/-- An idle session whose transcript ends in the chip-bearing assistant
message and whose pending cuisine set holds Italian. -/
def sChips : AppState :=
  { conversationId := some "c1", storedConversationId := some "c1"
    messages := [assistantPrompt]
    pendingSelections := [("cuisine", ["Italian"])]
    sending := false, startupError := "", started := true }

/-- A session with a request outstanding. -/
def sBusy : AppState :=
  { conversationId := some "c1", storedConversationId := some "c1"
    messages := [assistantPrompt], text := "hello again"
    sending := true, startupError := "", started := true }

/-! Helper lemmas. -/

lemma jsStr_some {t : String} (ht : t ≠ "") : jsStr (some t) = some t := by
  simp [jsStr, ht]

@[simp] lemma jsStr_none : jsStr none = none := rfl

@[simp] lemma adoptConversationId_messages (s : AppState) (d : RespData) :
    (adoptConversationId s d).messages = s.messages := by
  unfold adoptConversationId; split <;> rfl

@[simp] lemma adoptConversationId_pendingSelections (s : AppState) (d : RespData) :
    (adoptConversationId s d).pendingSelections = s.pendingSelections := by
  unfold adoptConversationId; split <;> rfl

@[simp] lemma adoptConversationId_theme (s : AppState) (d : RespData) :
    (adoptConversationId s d).theme = s.theme := by
  unfold adoptConversationId; split <;> rfl

@[simp] lemma adoptConversationId_started (s : AppState) (d : RespData) :
    (adoptConversationId s d).started = s.started := by
  unfold adoptConversationId; split <;> rfl

@[simp] lemma adoptConversationId_toast (s : AppState) (d : RespData) :
    (adoptConversationId s d).toast = s.toast := by
  unfold adoptConversationId; split <;> rfl

@[simp] lemma adoptConversationId_sending (s : AppState) (d : RespData) :
    (adoptConversationId s d).sending = s.sending := by
  unfold adoptConversationId; split <;> rfl

@[simp] lemma adoptConversationId_text (s : AppState) (d : RespData) :
    (adoptConversationId s d).text = s.text := by
  unfold adoptConversationId; split <;> rfl

@[simp] lemma successToast_messages (s : AppState) (msgs : List ChatMessage) :
    (successToast s msgs).messages = s.messages := by
  unfold successToast; split <;> (try split) <;> rfl

@[simp] lemma successToast_pendingSelections (s : AppState) (msgs : List ChatMessage) :
    (successToast s msgs).pendingSelections = s.pendingSelections := by
  unfold successToast; split <;> (try split) <;> rfl

@[simp] lemma successToast_conversationId (s : AppState) (msgs : List ChatMessage) :
    (successToast s msgs).conversationId = s.conversationId := by
  unfold successToast; split <;> (try split) <;> rfl

@[simp] lemma successToast_storedConversationId (s : AppState) (msgs : List ChatMessage) :
    (successToast s msgs).storedConversationId = s.storedConversationId := by
  unfold successToast; split <;> (try split) <;> rfl

@[simp] lemma successToast_theme (s : AppState) (msgs : List ChatMessage) :
    (successToast s msgs).theme = s.theme := by
  unfold successToast; split <;> (try split) <;> rfl

@[simp] lemma successToast_started (s : AppState) (msgs : List ChatMessage) :
    (successToast s msgs).started = s.started := by
  unfold successToast; split <;> (try split) <;> rfl

@[simp] lemma successToast_sending (s : AppState) (msgs : List ChatMessage) :
    (successToast s msgs).sending = s.sending := by
  unfold successToast; split <;> (try split) <;> rfl

@[simp] lemma successToast_text (s : AppState) (msgs : List ChatMessage) :
    (successToast s msgs).text = s.text := by
  unfold successToast; split <;> (try split) <;> rfl

@[simp] lemma applySuccess_messages (s : AppState) (d : RespData) :
    (applySuccess s d).messages = s.messages ++ respMsgs d := by
  unfold applySuccess; simp

@[simp] lemma applySuccess_pendingSelections (s : AppState) (d : RespData) :
    (applySuccess s d).pendingSelections = s.pendingSelections := by
  unfold applySuccess; simp

@[simp] lemma applySuccess_theme (s : AppState) (d : RespData) :
    (applySuccess s d).theme = s.theme := by
  unfold applySuccess; simp

@[simp] lemma applySuccess_started (s : AppState) (d : RespData) :
    (applySuccess s d).started = s.started := by
  unfold applySuccess; simp

@[simp] lemma applySuccess_sending (s : AppState) (d : RespData) :
    (applySuccess s d).sending = s.sending := by
  unfold applySuccess; simp

@[simp] lemma applySuccess_text (s : AppState) (d : RespData) :
    (applySuccess s d).text = s.text := by
  unfold applySuccess; simp

lemma clearChips_concat (ms : List ChatMessage) (m : ChatMessage) :
    clearChipsOnLastAssistant (ms ++ [m]) =
      ms ++ [if m.role = "assistant" ∧ m.suggestions.isSome
             then { m with suggestions := none } else m] := by
  unfold clearChipsOnLastAssistant
  rw [List.getLast?_concat]
  simp only [List.dropLast_concat]
  split <;> rfl

lemma clearChips_addUserBubble (ms : List ChatMessage) (t : String) :
    clearChipsOnLastAssistant (addUserBubble ms t) = addUserBubble ms t := by
  unfold addUserBubble
  rw [clearChips_concat, if_neg (by simp)]

lemma echoStep_addUserBubble (ms : List ChatMessage) {t : String} (ht : t ≠ "") :
    echoStep (addUserBubble ms t) (some t) = addUserBubble ms t := by
  simp [echoStep, addUserBubble, jsStr, ht, List.getLast?_concat]

lemma userCount_user_singleton (t : String) :
    userCount [{ role := "user", text := t, suggestions := none }] = 1 := rfl

lemma userCount_assistant_singleton (t : String) :
    userCount [{ role := "assistant", text := t, suggestions := none }] = 0 := rfl

@[simp] lemma echoStep_none (ms : List ChatMessage) : echoStep ms none = ms := rfl

lemma userCount_append (a b : List ChatMessage) :
    userCount (a ++ b) = userCount a + userCount b := by
  unfold userCount; rw [List.filter_append, List.length_append]

lemma userCount_nonuser {l : List ChatMessage} (h : ∀ m ∈ l, m.role ≠ "user") :
    userCount l = 0 := by
  unfold userCount
  rw [List.filter_eq_nil_iff.mpr (by simpa using h)]
  rfl

lemma userCount_echoStep_le (ms : List ChatMessage) (pt : Option String) :
    userCount (echoStep ms pt) ≤ userCount ms + 1 := by
  unfold echoStep
  cases h : jsStr pt with
  | none => exact Nat.le_succ_of_le (Nat.le_refl _)
  | some t =>
      cases hl : ms.getLast? with
      | none => simp [hl, userCount_append, userCount_user_singleton]
      | some last =>
          by_cases hc : last.role = "user" ∧ last.text = t
          · simp [hl, hc]
          · simp [hl, hc, userCount_append, userCount_user_singleton]

lemma userCount_addUserBubble (ms : List ChatMessage) (t : String) :
    userCount (addUserBubble ms t) = userCount ms + 1 := by
  unfold addUserBubble
  rw [userCount_append]
  simp [userCount]

lemma userCount_clearChips (ms : List ChatMessage) :
    userCount (clearChipsOnLastAssistant ms) = userCount ms := by
  induction ms using List.reverseRecOn with
  | nil => rfl
  | append_singleton xs x _ =>
      rw [clearChips_concat, userCount_append, userCount_append]
      congr 1
      split <;> (try rfl) <;> simp only [userCount, List.filter_singleton] <;>
        cases hb : decide (x.role = "user") <;> simp [hb]

lemma sendChat_config_missing {cfg : Config} (fetch : RequestBody → FetchOutcome)
    (body : RequestBody) (h : getConfigStatus cfg ≠ []) :
    sendChat cfg fetch body = (.error (.configError (getConfigStatus cfg)), []) := by
  unfold sendChat
  rw [if_neg (by simpa [List.isEmpty_iff] using h)]

lemma sendChat_resp {cfg : Config} {fetch : RequestBody → FetchOutcome}
    {body : RequestBody} {status : Nat} {bt : String} {d : RespData}
    (hcfg : getConfigStatus cfg = []) (hf : fetch body = .response status bt d) :
    sendChat cfg fetch body =
      (if resOk status then .ok d else .error (.backendError status bt), [body]) := by
  unfold sendChat
  rw [if_pos (by simp [hcfg]), hf]
  by_cases h : resOk status <;> simp [h]

lemma sendChat_failure {cfg : Config} {fetch : RequestBody → FetchOutcome}
    {body : RequestBody} {m : String}
    (hcfg : getConfigStatus cfg = []) (hf : fetch body = .failure m) :
    sendChat cfg fetch body = (.error (.networkError m), [body]) := by
  unfold sendChat
  rw [if_pos (by simp [hcfg]), hf]

lemma sendChat_calls_le (cfg : Config) (fetch : RequestBody → FetchOutcome)
    (body : RequestBody) : (sendChat cfg fetch body).2.length ≤ 1 := by
  unfold sendChat
  split
  · cases fetch body with
    | response status bt d => by_cases h : resOk status <;> simp [h]
    | failure m => simp
  · simp

lemma sendChat_calls_mem {cfg : Config} {fetch : RequestBody → FetchOutcome}
    {body b : RequestBody} (h : b ∈ (sendChat cfg fetch body).2) : b = body := by
  unfold sendChat at h
  split at h
  · cases hfb : fetch body with
    | response status bt d =>
        rw [hfb] at h
        by_cases hr : resOk status <;> simp [hr] at h <;> exact h
    | failure m =>
        rw [hfb] at h
        simpa using h
  · simp at h

lemma userCount_respMsgs {fetch : RequestBody → FetchOutcome}
    (hor : oracleNoUserMsgs fetch) (b : RequestBody) {status : Nat} {bt : String}
    {d : RespData} (h : fetch b = .response status bt d) :
    userCount (respMsgs d) = 0 := by
  have hb := hor b
  rw [h] at hb
  unfold respMsgs
  cases hm : d.messages with
  | arr l =>
      have hb2 : ∀ m ∈ l, m.role ≠ "user" := by simpa [hm] using hb
      exact userCount_nonuser hb2
  | absent => rfl
  | nonArray => rfl

/-- The three guards of handleSend passed: the main path as an explicit
composition of the embedded pieces. -/
lemma handleSend_eq {cfg : Config} {fetch : RequestBody → FetchOutcome}
    {now : Nat} {s : AppState} {pt : Option String} {a : Option ChipAction}
    (hdedup : ¬(s.lastRequestKey = some (requestKey pt a) ∧ now - s.lastRequestTs < 1200))
    (hsend : s.sending = false) (herr : s.startupError = "") :
    handleSend cfg fetch now s pt a =
      ({ (match (sendChat cfg fetch (buildBody s.conversationId pt a)).1 with
          | .ok d => applySuccess (postGuardState s now pt a) d
          | .error e => applyFailure (postGuardState s now pt a) e) with
          sending := false, text := "" },
        (sendChat cfg fetch (buildBody s.conversationId pt a)).2) := by
  unfold handleSend
  rw [if_neg hdedup, if_neg (by simp [hsend, herr])]

lemma handleSend_error_eq {cfg : Config} {fetch : RequestBody → FetchOutcome}
    {now : Nat} {s : AppState} {pt : Option String} {a : Option ChipAction}
    {e : ChatError}
    (hdedup : ¬(s.lastRequestKey = some (requestKey pt a) ∧ now - s.lastRequestTs < 1200))
    (hsend : s.sending = false) (herr : s.startupError = "")
    (hfail : (sendChat cfg fetch (buildBody s.conversationId pt a)).1 = .error e) :
    handleSend cfg fetch now s pt a =
      ({ applyFailure (postGuardState s now pt a) e with sending := false, text := "" },
        (sendChat cfg fetch (buildBody s.conversationId pt a)).2) := by
  rw [handleSend_eq hdedup hsend herr, hfail]

lemma handleSend_ok_eq {cfg : Config} {fetch : RequestBody → FetchOutcome}
    {now : Nat} {s : AppState} {pt : Option String} {a : Option ChipAction}
    {d : RespData}
    (hdedup : ¬(s.lastRequestKey = some (requestKey pt a) ∧ now - s.lastRequestTs < 1200))
    (hsend : s.sending = false) (herr : s.startupError = "")
    (hok : (sendChat cfg fetch (buildBody s.conversationId pt a)).1 = .ok d) :
    handleSend cfg fetch now s pt a =
      ({ applySuccess (postGuardState s now pt a) d with sending := false, text := "" },
        (sendChat cfg fetch (buildBody s.conversationId pt a)).2) := by
  rw [handleSend_eq hdedup hsend herr, hok]

/-- The dedup guard: a suppressed call changes nothing and issues nothing. -/
lemma handleSend_dedup {cfg : Config} {fetch : RequestBody → FetchOutcome}
    {now : Nat} {s : AppState} {pt : Option String} {a : Option ChipAction}
    (h : s.lastRequestKey = some (requestKey pt a) ∧ now - s.lastRequestTs < 1200) :
    handleSend cfg fetch now s pt a = (s, []) := by
  unfold handleSend
  rw [if_pos h]

/-- The single-flight guard inside handleSend. -/
lemma handleSend_guard {cfg : Config} {fetch : RequestBody → FetchOutcome}
    {now : Nat} {s : AppState} {pt : Option String} {a : Option ChipAction}
    (hdedup : ¬(s.lastRequestKey = some (requestKey pt a) ∧ now - s.lastRequestTs < 1200))
    (h : s.sending = true ∨ s.startupError ≠ "") :
    handleSend cfg fetch now s pt a =
      ({ s with lastRequestKey := some (requestKey pt a), lastRequestTs := now }, []) := by
  unfold handleSend
  rw [if_neg hdedup, if_pos h]

/-- The single-flight guard of the legacy handleSend. -/
lemma handleSendLegacy_guard {cfg : Config} {fetch : RequestBody → FetchOutcome}
    {s : AppState} {pt : Option String} {a : Option ChipAction}
    (h : s.sending = true ∨ s.startupError ≠ "") :
    handleSendLegacy cfg fetch s pt a = (s, []) := by
  unfold handleSendLegacy
  rw [if_pos h]

lemma sendChat_ok_inv {cfg : Config} {fetch : RequestBody → FetchOutcome}
    {body : RequestBody} {d : RespData}
    (h : (sendChat cfg fetch body).1 = .ok d) :
    ∃ status bt, fetch body = .response status bt d ∧ resOk status := by
  unfold sendChat at h
  split at h
  · cases hfb : fetch body with
    | response status bt j =>
        rw [hfb] at h
        by_cases hr : resOk status
        · simp [hr] at h
          exact ⟨status, bt, by rw [h], hr⟩
        · simp [hr] at h
    | failure m => rw [hfb] at h; simp at h
  · simp at h

lemma applySuccess_conversationId (s : AppState) (d : RespData) :
    (applySuccess s d).conversationId = (adoptConversationId s d).conversationId := by
  unfold applySuccess; simp

lemma applySuccess_storedConversationId (s : AppState) (d : RespData) :
    (applySuccess s d).storedConversationId = (adoptConversationId s d).storedConversationId := by
  unfold applySuccess; simp

@[simp] lemma applySuccess_lastRequestKey (s : AppState) (d : RespData) :
    (applySuccess s d).lastRequestKey = s.lastRequestKey := by
  unfold applySuccess successToast adoptConversationId
  repeat' split
  all_goals rfl

@[simp] lemma applySuccess_lastRequestTs (s : AppState) (d : RespData) :
    (applySuccess s d).lastRequestTs = s.lastRequestTs := by
  unfold applySuccess successToast adoptConversationId
  repeat' split
  all_goals rfl

/-- handleSend never touches pendingSelections. -/
lemma handleSend_pendingSelections (cfg : Config) (fetch : RequestBody → FetchOutcome)
    (now : Nat) (s : AppState) (pt : Option String) (a : Option ChipAction) :
    (handleSend cfg fetch now s pt a).1.pendingSelections = s.pendingSelections := by
  unfold handleSend
  split
  · rfl
  · split
    · rfl
    · cases hr : (sendChat cfg fetch (buildBody s.conversationId pt a)).1 with
      | ok d => simp [hr, postGuardState]
      | error e => simp [hr, applyFailure, postGuardState]

/-- handleSend never touches the theme. -/
lemma handleSend_theme (cfg : Config) (fetch : RequestBody → FetchOutcome)
    (now : Nat) (s : AppState) (pt : Option String) (a : Option ChipAction) :
    (handleSend cfg fetch now s pt a).1.theme = s.theme := by
  unfold handleSend
  split
  · rfl
  · split
    · rfl
    · cases hr : (sendChat cfg fetch (buildBody s.conversationId pt a)).1 with
      | ok d => simp [hr, postGuardState]
      | error e => simp [hr, applyFailure, postGuardState]

/-- handleSend never touches the started flag. -/
lemma handleSend_started (cfg : Config) (fetch : RequestBody → FetchOutcome)
    (now : Nat) (s : AppState) (pt : Option String) (a : Option ChipAction) :
    (handleSend cfg fetch now s pt a).1.started = s.started := by
  unfold handleSend
  split
  · rfl
  · split
    · rfl
    · cases hr : (sendChat cfg fetch (buildBody s.conversationId pt a)).1 with
      | ok d => simp [hr, postGuardState]
      | error e => simp [hr, applyFailure, postGuardState]

/-- An accepted (not dedup-suppressed) handleSend records its request key
and timestamp in the ref. -/
lemma handleSend_lastRequest (cfg : Config) (fetch : RequestBody → FetchOutcome)
    (now : Nat) (s : AppState) (pt : Option String) (a : Option ChipAction)
    (hdedup : ¬(s.lastRequestKey = some (requestKey pt a) ∧ now - s.lastRequestTs < 1200)) :
    (handleSend cfg fetch now s pt a).1.lastRequestKey = some (requestKey pt a) ∧
    (handleSend cfg fetch now s pt a).1.lastRequestTs = now := by
  unfold handleSend
  rw [if_neg hdedup]
  split
  · exact ⟨rfl, rfl⟩
  · cases hr : (sendChat cfg fetch (buildBody s.conversationId pt a)).1 with
    | ok d => simp [hr, postGuardState]
    | error e => simp [hr, applyFailure, postGuardState]

/-- handleSend issues at most one request. -/
lemma handleSend_calls_le (cfg : Config) (fetch : RequestBody → FetchOutcome)
    (now : Nat) (s : AppState) (pt : Option String) (a : Option ChipAction) :
    (handleSend cfg fetch now s pt a).2.length ≤ 1 := by
  unfold handleSend
  split
  · simp
  · split
    · simp
    · exact sendChat_calls_le cfg fetch _

/-- The legacy handleSend issues at most one request. -/
lemma handleSendLegacy_calls_le (cfg : Config) (fetch : RequestBody → FetchOutcome)
    (s : AppState) (pt : Option String) (a : Option ChipAction) :
    (handleSendLegacy cfg fetch s pt a).2.length ≤ 1 := by
  unfold handleSendLegacy
  split
  · simp
  · exact sendChat_calls_le cfg fetch _

/-- The transcript never loses user entries and gains at most the one echo
across handleSend, measured against the echo step. -/
lemma userCount_le_echoStep (ms : List ChatMessage) (pt : Option String) :
    userCount ms ≤ userCount (echoStep ms pt) := by
  unfold echoStep
  cases h : jsStr pt with
  | none => exact Nat.le_refl _
  | some t =>
      cases hl : ms.getLast? with
      | none => simp [hl, userCount_append]
      | some last =>
          by_cases hc : last.role = "user" ∧ last.text = t
          · simp [hl, hc]
          · simp [hl, hc, userCount_append]

lemma userCount_handleSend_le (cfg : Config) (fetch : RequestBody → FetchOutcome)
    (now : Nat) (s : AppState) (pt : Option String) (a : Option ChipAction)
    (hor : oracleNoUserMsgs fetch) :
    userCount (handleSend cfg fetch now s pt a).1.messages ≤
      userCount (echoStep s.messages pt) := by
  by_cases hdedup : s.lastRequestKey = some (requestKey pt a) ∧ now - s.lastRequestTs < 1200
  · rw [handleSend_dedup hdedup]
    exact userCount_le_echoStep s.messages pt
  · by_cases hguard : s.sending = true ∨ s.startupError ≠ ""
    · rw [handleSend_guard hdedup hguard]
      exact userCount_le_echoStep s.messages pt
    · have hsend : s.sending = false := by
        cases hb : s.sending
        · rfl
        · exact absurd (Or.inl hb) hguard
      have herr : s.startupError = "" := by
        by_contra h
        exact hguard (Or.inr h)
      cases hr : (sendChat cfg fetch (buildBody s.conversationId pt a)).1 with
      | ok d =>
          rw [handleSend_ok_eq hdedup hsend herr hr]
          obtain ⟨status, bt, hf, _⟩ := sendChat_ok_inv hr
          have h0 : userCount (respMsgs d) = 0 := userCount_respMsgs hor _ hf
          simp [applySuccess_messages, postGuardState, userCount_append, h0]
      | error e =>
          rw [handleSend_error_eq hdedup hsend herr hr]
          simp [applyFailure, postGuardState, userCount_append,
            userCount_assistant_singleton]

/-- The legacy handleSend with an empty payload adds no user entries. -/
lemma userCount_handleSendLegacy_none (cfg : Config)
    (fetch : RequestBody → FetchOutcome) (s : AppState)
    (hor : oracleNoUserMsgs fetch) :
    userCount (handleSendLegacy cfg fetch s none none).1.messages ≤
      userCount s.messages := by
  by_cases hguard : s.sending = true ∨ s.startupError ≠ ""
  · rw [handleSendLegacy_guard hguard]
  · unfold handleSendLegacy
    rw [if_neg hguard]
    cases hr : (sendChat cfg fetch (buildBody s.conversationId none none)).1 with
    | ok d =>
        obtain ⟨status, bt, hf, _⟩ := sendChat_ok_inv hr
        have h0 : userCount (respMsgs d) = 0 := userCount_respMsgs hor _ hf
        simp [hr, applySuccess_messages, userCount_append, h0]
    | error e =>
        simp [hr, applyFailure, userCount_append, userCount_assistant_singleton]

@[simp] lemma lookupGroup_nil (g : String) : lookupGroup [] g = [] := rfl

@[simp] lemma lookupGroup_cons (k : String) (vs : List String) (t : Selections)
    (g : String) :
    lookupGroup ((k, vs) :: t) g = if k = g then vs else lookupGroup t g := rfl

@[simp] lemma hasGroup_nil (g : String) : hasGroup [] g = false := rfl

@[simp] lemma hasGroup_cons (k : String) (vs : List String) (t : Selections)
    (g : String) :
    hasGroup ((k, vs) :: t) g = if k = g then true else hasGroup t g := rfl

lemma lookupGroup_map_set_self (ps : Selections) (g : String) (xs : List String)
    (h : hasGroup ps g = true) :
    lookupGroup (ps.map (fun p => if p.1 = g then (g, xs) else p)) g = xs := by
  induction ps with
  | nil => simp at h
  | cons p t ih =>
      obtain ⟨k, vs⟩ := p
      by_cases hp : k = g
      · subst hp
        simp
      · have ht : hasGroup t g = true := by simpa [hp] using h
        simp [hp, ih ht]

lemma lookupGroup_append_single_self (ps : Selections) (g : String)
    (xs : List String) (h : hasGroup ps g = false) :
    lookupGroup (ps ++ [(g, xs)]) g = xs := by
  induction ps with
  | nil => simp
  | cons p t ih =>
      obtain ⟨k, vs⟩ := p
      by_cases hp : k = g
      · simp [hp] at h
      · have ht : hasGroup t g = false := by simpa [hp] using h
        simp [hp, ih ht]

lemma lookupGroup_setGroup_self (ps : Selections) (g : String) (xs : List String) :
    lookupGroup (setGroup ps g xs) g = xs := by
  unfold setGroup
  by_cases h : hasGroup ps g
  · rw [if_pos h]
    exact lookupGroup_map_set_self ps g xs h
  · rw [if_neg h]
    exact lookupGroup_append_single_self ps g xs (by simpa using h)

lemma lookupGroup_map_set_other (ps : Selections) {g g' : String}
    (xs : List String) (hne : ¬g = g') :
    lookupGroup (ps.map (fun p => if p.1 = g then (g, xs) else p)) g' =
      lookupGroup ps g' := by
  induction ps with
  | nil => rfl
  | cons p t ih =>
      obtain ⟨k, vs⟩ := p
      by_cases hp : k = g
      · subst hp
        simp [hne, ih]
      · simp [hp, ih]

lemma lookupGroup_append_single_other (ps : Selections) {g g' : String}
    (xs : List String) (hne : ¬g = g') :
    lookupGroup (ps ++ [(g, xs)]) g' = lookupGroup ps g' := by
  induction ps with
  | nil => simp [hne]
  | cons p t ih =>
      obtain ⟨k, vs⟩ := p
      simp [ih]

lemma lookupGroup_setGroup_other (ps : Selections) {g g' : String}
    (xs : List String) (hne : g' ≠ g) :
    lookupGroup (setGroup ps g xs) g' = lookupGroup ps g' := by
  have hgg : ¬g = g' := fun hgg => hne hgg.symm
  unfold setGroup
  split
  · exact lookupGroup_map_set_other ps xs hgg
  · exact lookupGroup_append_single_other ps xs hgg

lemma lookupGroup_toggle (ps : Selections) (g v : String) :
    lookupGroup (toggleSelection ps g v) g =
      if (lookupGroup ps g).contains v then (lookupGroup ps g).filter (· != v)
      else lookupGroup ps g ++ [v] := by
  simp only [toggleSelection]
  by_cases h : (lookupGroup ps g).contains v = true
  · simp only [if_pos h, lookupGroup_setGroup_self]
  · simp only [if_neg h, lookupGroup_setGroup_self]

/-- A double toggle of the same value restores membership of the group. -/
lemma mem_toggle_toggle (ps : Selections) (g v x : String) :
    x ∈ lookupGroup (toggleSelection (toggleSelection ps g v) g v) g ↔
      x ∈ lookupGroup ps g := by
  by_cases hv : (lookupGroup ps g).contains v
  · have hv' : v ∈ lookupGroup ps g := by simpa using hv
    have h1 : lookupGroup (toggleSelection ps g v) g =
        (lookupGroup ps g).filter (· != v) := by
      rw [lookupGroup_toggle, if_pos hv]
    have h2 : ¬((lookupGroup ps g).filter (· != v)).contains v = true := by
      simp [List.mem_filter]
    rw [lookupGroup_toggle, h1, if_neg h2]
    by_cases hx : x = v
    · subst hx
      simp [hv']
    · simp [List.mem_append, List.mem_filter, hx]
  · have hv' : v ∉ lookupGroup ps g := by simpa using hv
    have h1 : lookupGroup (toggleSelection ps g v) g =
        lookupGroup ps g ++ [v] := by
      rw [lookupGroup_toggle, if_neg hv]
    have h2 : (lookupGroup ps g ++ [v]).contains v = true := by
      simp
    have h3 : (lookupGroup ps g ++ [v]).filter (· != v) = lookupGroup ps g := by
      rw [List.filter_append]
      have hl : (lookupGroup ps g).filter (· != v) = lookupGroup ps g :=
        List.filter_eq_self.mpr (by
          intro b hb
          simp only [bne_iff_ne, ne_eq, decide_eq_true_eq]
          intro hbv
          exact hv' (hbv ▸ hb))
      simp [hl]
    rw [lookupGroup_toggle, h1, if_pos h2, h3]

lemma sendChat_calls_config {cfg : Config} (fetch : RequestBody → FetchOutcome)
    (body : RequestBody) (hcfg : getConfigStatus cfg = []) :
    (sendChat cfg fetch body).2 = [body] := by
  unfold sendChat
  rw [if_pos (by simp [hcfg])]
  cases hf : fetch body with
  | response status bt d => by_cases hr : resOk status <;> simp [hr]
  | failure m => simp

lemma handleSend_calls_config (cfg : Config) (fetch : RequestBody → FetchOutcome)
    (now : Nat) (s : AppState) (pt : Option String) (a : Option ChipAction)
    (hcfg : getConfigStatus cfg = [])
    (hdedup : ¬(s.lastRequestKey = some (requestKey pt a) ∧ now - s.lastRequestTs < 1200))
    (hsend : s.sending = false) (herr : s.startupError = "") :
    (handleSend cfg fetch now s pt a).2 = [buildBody s.conversationId pt a] := by
  rw [handleSend_eq hdedup hsend herr]
  exact sendChat_calls_config fetch _ hcfg

/-- Whatever the transport outcome, the transcript after an accepted send
is the echoed transcript followed by some trailing part. -/
lemma handleSend_messages_decomp (cfg : Config) (fetch : RequestBody → FetchOutcome)
    (now : Nat) (s : AppState) (pt : Option String) (a : Option ChipAction)
    (hdedup : ¬(s.lastRequestKey = some (requestKey pt a) ∧ now - s.lastRequestTs < 1200))
    (hsend : s.sending = false) (herr : s.startupError = "") :
    ∃ rest, (handleSend cfg fetch now s pt a).1.messages =
      echoStep s.messages pt ++ rest := by
  cases hr : (sendChat cfg fetch (buildBody s.conversationId pt a)).1 with
  | ok d =>
      refine ⟨respMsgs d, ?_⟩
      rw [handleSend_ok_eq hdedup hsend herr hr]
      simp [applySuccess_messages, postGuardState]
  | error e =>
      refine ⟨[{ role := "assistant", text := errorText e, suggestions := none }], ?_⟩
      rw [handleSend_error_eq hdedup hsend herr hr]
      rfl

/-- With an empty payload, handleSend never adds user entries. -/
lemma userCount_handleSend_none_le (cfg : Config) (fetch : RequestBody → FetchOutcome)
    (now : Nat) (x : AppState) (a : Option ChipAction) (hor : oracleNoUserMsgs fetch) :
    userCount (handleSend cfg fetch now x none a).1.messages ≤ userCount x.messages := by
  simpa [echoStep_none] using userCount_handleSend_le cfg fetch now x none a hor

lemma handleChipClick_calls_le (cfg : Config) (fetch : RequestBody → FetchOutcome)
    (now : Nat) (s : AppState) (sugg : Option Suggestion) :
    (handleChipClick cfg fetch now s sugg).2.length ≤ 1 := by
  cases sugg with
  | none => simp [handleChipClick]
  | some sg =>
      unfold handleChipClick
      dsimp only
      split
      · simp
      · split
        · simp
        · split
          · exact handleSend_calls_le cfg fetch now _ _ _
          · split
            · exact handleSend_calls_le cfg fetch now _ _ _
            · exact handleSend_calls_le cfg fetch now _ _ _

lemma handleChipClick_userCount_le (cfg : Config) (fetch : RequestBody → FetchOutcome)
    (now : Nat) (s : AppState) (sugg : Option Suggestion)
    (hor : oracleNoUserMsgs fetch) :
    userCount (handleChipClick cfg fetch now s sugg).1.messages ≤
      userCount s.messages + 1 := by
  cases sugg with
  | none => exact Nat.le_succ _
  | some sg =>
      unfold handleChipClick
      dsimp only
      split
      · exact Nat.le_succ _
      · split
        · exact Nat.le_succ _
        · split
          · refine le_trans (userCount_handleSend_none_le cfg fetch now _ _ hor) ?_
            show userCount (clearChipsOnLastAssistant (addUserBubble s.messages _)) ≤
              userCount s.messages + 1
            rw [clearChips_addUserBubble, userCount_addUserBubble]
          · split
            · refine le_trans (userCount_handleSend_none_le cfg fetch now _ _ hor) ?_
              show userCount (clearChipsOnLastAssistant (addUserBubble s.messages _)) ≤
                userCount s.messages + 1
              rw [clearChips_addUserBubble, userCount_addUserBubble]
            · refine le_trans (userCount_handleSend_none_le cfg fetch now _ _ hor) ?_
              show userCount (clearChipsOnLastAssistant (addUserBubble s.messages _)) ≤
                userCount s.messages + 1
              rw [clearChips_addUserBubble, userCount_addUserBubble]

/-- oracleNoUserMsgs holds for the empty-answer fixture backend. -/
lemma fetchEmptyOk_no_user : oracleNoUserMsgs fetchEmptyOk := by
  intro b
  simp [fetchEmptyOk, oracleNoUserMsgs]

/-- A click on a client-only toggle chip only flips the selection. -/
lemma chipClick_toggle_eq (cfg : Config) (fetch : RequestBody → FetchOutcome)
    (now : Nat) (s : AppState) (title : String) {group value : String}
    (hg : group ≠ "") (hv : value ≠ "")
    (hguard : ¬(s.sending = true ∨ s.startupError ≠ "")) :
    handleChipClick cfg fetch now s (some (toggleChip title group value)) =
      ({ s with pendingSelections := toggleSelection s.pendingSelections group value }, []) := by
  unfold handleChipClick toggleChip
  dsimp only
  rw [if_neg hguard]
  rw [if_pos ⟨rfl, rfl, hg, hv⟩]
  rfl

/-- A click on a submit-cuisines chip, written as the explicit
composition of the embedded pieces. -/
lemma chipClick_submitCuisines_eq (cfg : Config) (fetch : RequestBody → FetchOutcome)
    (now : Nat) (s : AppState) (sg : Suggestion) (a0 : ChipAction)
    (ha : sg.action = some a0) (htype : a0.type = "submit_refine_cuisines")
    (hguard : ¬(s.sending = true ∨ s.startupError ≠ "")) :
    handleChipClick cfg fetch now s (some sg) =
      (let list := lookupGroup s.pendingSelections "cuisine"
       let title := if list.isEmpty then "No cuisine preference"
         else "Cuisines: " ++ String.intercalate ", " list
       let sA := { s with
         messages := clearChipsOnLastAssistant (addUserBubble s.messages title) }
       let r := handleSend cfg fetch now sA none
         (some { type := "refine_set_cuisines", data := list })
       ({ r.1 with
            pendingSelections := clearSelections r.1.pendingSelections "cuisine"
            started := true }, r.2)) := by
  have h1 : ¬(a0.clientOnly = true ∧ a0.type = "toggle" ∧ a0.group ≠ "" ∧ a0.value ≠ "") := by
    rintro ⟨-, h2, -, -⟩
    rw [htype] at h2
    exact absurd h2 (by decide)
  unfold handleChipClick
  dsimp only
  rw [if_neg hguard]
  simp only [ha, Option.getD_some]
  rw [if_neg h1, if_pos htype]

/-! Claim theorems. -/

/-- Claim C3 (configuration gate): when the endpoint URL or the bearer
credential is missing, sendChat fails with a configuration error that
names exactly the missing configuration keys, hands nothing to fetch, and
its outcome is independent of the network. -/
theorem configuration_gate (cfg : Config) (fetch fetch2 : RequestBody → FetchOutcome)
    (body : RequestBody) (h : cfg.API_URL = "" ∨ cfg.ANON_KEY = "") :
    (sendChat cfg fetch body).1 = .error (.configError (getConfigStatus cfg)) ∧
    getConfigStatus cfg ≠ [] ∧
    (∀ k, k ∈ getConfigStatus cfg ↔
      (k = "VITE_CHAT_URL" ∧ cfg.API_URL = "") ∨
      (k = "VITE_SUPABASE_ANON_KEY" ∧ cfg.ANON_KEY = "")) ∧
    (sendChat cfg fetch body).2 = [] ∧
    sendChat cfg fetch body = sendChat cfg fetch2 body := by
  have hne : getConfigStatus cfg ≠ [] := by
    unfold getConfigStatus
    rcases h with h | h <;> intro hc <;> simp [h, List.append_eq_nil] at hc
  refine ⟨?_, hne, ?_, ?_, ?_⟩
  · rw [sendChat_config_missing fetch body hne]
  · intro k
    unfold getConfigStatus
    by_cases h1 : cfg.API_URL = "" <;> by_cases h2 : cfg.ANON_KEY = "" <;>
      simp [h1, h2]
  · rw [sendChat_config_missing fetch body hne]
  · rw [sendChat_config_missing fetch body hne,
      sendChat_config_missing fetch2 body hne]

/-- Witness for C3: with the endpoint URL unset, the error names exactly
VITE_CHAT_URL, nothing reaches fetch, and a dead network and a healthy
network give the same outcome. -/
theorem configuration_gate_witness :
    (sendChat cfgNoUrl fetchDown ({} : RequestBody)).1 =
        .error (.configError (getConfigStatus cfgNoUrl)) ∧
    getConfigStatus cfgNoUrl ≠ [] ∧
    (∀ k, k ∈ getConfigStatus cfgNoUrl ↔
      (k = "VITE_CHAT_URL" ∧ cfgNoUrl.API_URL = "") ∨
      (k = "VITE_SUPABASE_ANON_KEY" ∧ cfgNoUrl.ANON_KEY = "")) ∧
    (sendChat cfgNoUrl fetchDown ({} : RequestBody)).2 = [] ∧
    sendChat cfgNoUrl fetchDown ({} : RequestBody) =
      sendChat cfgNoUrl fetchEmptyOk ({} : RequestBody) :=
  configuration_gate cfgNoUrl fetchDown fetchEmptyOk ({} : RequestBody) (Or.inl rfl)

/-- Claim C5 (failure conversion): when the transport call of an accepted
send fails, exactly one assistant entry holding the error text is
appended after the echo step, an error toast is surfaced, and afterwards
sending is false and the composer text is cleared. -/
theorem failure_conversion (cfg : Config) (fetch : RequestBody → FetchOutcome)
    (now : Nat) (s : AppState) (pt : Option String) (a : Option ChipAction)
    (e : ChatError)
    (hdedup : ¬(s.lastRequestKey = some (requestKey pt a) ∧ now - s.lastRequestTs < 1200))
    (hsend : s.sending = false) (herr : s.startupError = "")
    (hfail : (sendChat cfg fetch (buildBody s.conversationId pt a)).1 = .error e) :
    (handleSend cfg fetch now s pt a).1.messages =
      echoStep s.messages pt ++
        [{ role := "assistant", text := errorText e, suggestions := none }] ∧
    (handleSend cfg fetch now s pt a).1.toast =
      some { type := "error", message := "Network error. Please try again." } ∧
    (handleSend cfg fetch now s pt a).1.sending = false ∧
    (handleSend cfg fetch now s pt a).1.text = "" := by
  rw [handleSend_error_eq hdedup hsend herr hfail]
  exact ⟨rfl, rfl, rfl, rfl⟩

/-- Witness for C5 at an HTTP 500 with body boom. -/
theorem failure_conversion_witness :
    (handleSend cfg0 fetchBoom 5000 sBase (some "hi") none).1.messages =
      echoStep sBase.messages (some "hi") ++
        [{ role := "assistant", text := errorText (.backendError 500 "boom"),
           suggestions := none }] ∧
    (handleSend cfg0 fetchBoom 5000 sBase (some "hi") none).1.toast =
      some { type := "error", message := "Network error. Please try again." } ∧
    (handleSend cfg0 fetchBoom 5000 sBase (some "hi") none).1.sending = false ∧
    (handleSend cfg0 fetchBoom 5000 sBase (some "hi") none).1.text = "" :=
  failure_conversion cfg0 fetchBoom 5000 sBase (some "hi") none
    (.backendError 500 "boom") (by decide) rfl rfl rfl

/-- Claim C10 (error-path frame): a failed transport call leaves the
conversation id (in memory and persisted), the pending selections, the
theme and the started flag unchanged; it only appends the error entry to
the transcript, sets the error toast, resets sending and clears the
composer text. -/
theorem failure_frame (cfg : Config) (fetch : RequestBody → FetchOutcome)
    (now : Nat) (s : AppState) (pt : Option String) (a : Option ChipAction)
    (e : ChatError)
    (hdedup : ¬(s.lastRequestKey = some (requestKey pt a) ∧ now - s.lastRequestTs < 1200))
    (hsend : s.sending = false) (herr : s.startupError = "")
    (hfail : (sendChat cfg fetch (buildBody s.conversationId pt a)).1 = .error e) :
    (handleSend cfg fetch now s pt a).1.conversationId = s.conversationId ∧
    (handleSend cfg fetch now s pt a).1.storedConversationId = s.storedConversationId ∧
    (handleSend cfg fetch now s pt a).1.pendingSelections = s.pendingSelections ∧
    (handleSend cfg fetch now s pt a).1.theme = s.theme ∧
    (handleSend cfg fetch now s pt a).1.started = s.started ∧
    (handleSend cfg fetch now s pt a).1.messages =
      echoStep s.messages pt ++
        [{ role := "assistant", text := errorText e, suggestions := none }] ∧
    (handleSend cfg fetch now s pt a).1.toast =
      some { type := "error", message := "Network error. Please try again." } ∧
    (handleSend cfg fetch now s pt a).1.sending = false ∧
    (handleSend cfg fetch now s pt a).1.text = "" := by
  rw [handleSend_error_eq hdedup hsend herr hfail]
  exact ⟨rfl, rfl, rfl, rfl, rfl, rfl, rfl, rfl, rfl⟩

/-- Witness for C10 at a network-level failure. -/
theorem failure_frame_witness :
    (handleSend cfg0 fetchDown 5000 sBase none (some { type := "search" })).1.conversationId =
      sBase.conversationId ∧
    (handleSend cfg0 fetchDown 5000 sBase none (some { type := "search" })).1.storedConversationId =
      sBase.storedConversationId ∧
    (handleSend cfg0 fetchDown 5000 sBase none (some { type := "search" })).1.pendingSelections =
      sBase.pendingSelections ∧
    (handleSend cfg0 fetchDown 5000 sBase none (some { type := "search" })).1.theme =
      sBase.theme ∧
    (handleSend cfg0 fetchDown 5000 sBase none (some { type := "search" })).1.started =
      sBase.started ∧
    (handleSend cfg0 fetchDown 5000 sBase none (some { type := "search" })).1.messages =
      echoStep sBase.messages none ++
        [{ role := "assistant", text := errorText (.networkError "TypeError: Failed to fetch"),
           suggestions := none }] ∧
    (handleSend cfg0 fetchDown 5000 sBase none (some { type := "search" })).1.toast =
      some { type := "error", message := "Network error. Please try again." } ∧
    (handleSend cfg0 fetchDown 5000 sBase none (some { type := "search" })).1.sending = false ∧
    (handleSend cfg0 fetchDown 5000 sBase none (some { type := "search" })).1.text = "" :=
  failure_frame cfg0 fetchDown 5000 sBase none (some { type := "search" })
    (.networkError "TypeError: Failed to fetch") (by decide) rfl rfl rfl

/-- Claim C9 (defensive decoding): a successful response whose messages
field is missing or not an array contributes nothing to the transcript,
leaves the toast untouched, and ends the send normally. -/
theorem defensive_decoding (cfg : Config) (fetch : RequestBody → FetchOutcome)
    (now : Nat) (s : AppState) (pt : Option String) (a : Option ChipAction)
    (status : Nat) (bt : String) (d : RespData)
    (hdedup : ¬(s.lastRequestKey = some (requestKey pt a) ∧ now - s.lastRequestTs < 1200))
    (hsend : s.sending = false) (herr : s.startupError = "")
    (hcfg : getConfigStatus cfg = [])
    (hf : fetch (buildBody s.conversationId pt a) = .response status bt d)
    (hok : resOk status)
    (hbad : d.messages = .absent ∨ d.messages = .nonArray) :
    (handleSend cfg fetch now s pt a).1.messages = echoStep s.messages pt ∧
    (handleSend cfg fetch now s pt a).1.toast = s.toast ∧
    (handleSend cfg fetch now s pt a).1.sending = false := by
  have hok2 : (sendChat cfg fetch (buildBody s.conversationId pt a)).1 = .ok d := by
    rw [sendChat_resp hcfg hf]
    simp [hok]
  have hresp : respMsgs d = [] := by
    rcases hbad with hb | hb <;> simp [respMsgs, hb]
  rw [handleSend_ok_eq hdedup hsend herr hok2]
  refine ⟨?_, ?_, rfl⟩
  · simp [applySuccess_messages, hresp, postGuardState]
  · simp [applySuccess, hresp, successToast, postGuardState]

/-- Witness for C9 at a 200 response whose messages field is not an
array. -/
theorem defensive_decoding_witness :
    (handleSend cfg0 fetchBadMsgs 5000 sBase (some "hi") none).1.messages =
      echoStep sBase.messages (some "hi") ∧
    (handleSend cfg0 fetchBadMsgs 5000 sBase (some "hi") none).1.toast = sBase.toast ∧
    (handleSend cfg0 fetchBadMsgs 5000 sBase (some "hi") none).1.sending = false :=
  defensive_decoding cfg0 fetchBadMsgs 5000 sBase (some "hi") none 200 ""
    { conversationId := "", messages := .nonArray }
    (by decide) rfl rfl (by decide) rfl (by decide) (Or.inr rfl)

/-- Counterexample to claim C2 as stated: a send/response cycle does
change a previously set conversationId when the backend answers with a
different one — lines 125-128 adopt it with no reset involved. -/
theorem conversation_changed_without_reset :
    sBase.conversationId = some "c1" ∧
    (handleSend cfg0 fetchC2 5000 sBase (some "hi") none).1.conversationId = some "c2" ∧
    (handleSend cfg0 fetchC2 5000 sBase (some "hi") none).1.conversationId ≠
      sBase.conversationId := by
  refine ⟨rfl, by decide, by decide⟩

/-- Claim C2 as amended: once conversationId is set (to a non-empty id),
every request body built by handleSend carries it unchanged, it never
returns to None through a send/response cycle — only resetConversation
clears it — and a cycle changes it only by adopting a different non-empty
id carried by that cycle's response. -/
theorem conversation_identity_amended (cfg : Config)
    (fetch : RequestBody → FetchOutcome) (now : Nat) (s : AppState)
    (pt : Option String) (a : Option ChipAction) (c : String)
    (hc : s.conversationId = some c) (hcne : c ≠ "") :
    (∀ b ∈ (handleSend cfg fetch now s pt a).2, b.conversationId = some c) ∧
    (handleSend cfg fetch now s pt a).1.conversationId ≠ none ∧
    ((handleSend cfg fetch now s pt a).1.conversationId = some c ∨
      (∃ status bt d, fetch (buildBody s.conversationId pt a) = .response status bt d ∧
        d.conversationId ≠ "" ∧ d.conversationId ≠ c ∧
        (handleSend cfg fetch now s pt a).1.conversationId = some d.conversationId)) ∧
    (resetConversation (handleSend cfg fetch now s pt a).1).conversationId = none ∧
    (resetConversation (handleSend cfg fetch now s pt a).1).storedConversationId = none := by
  by_cases hdedup : s.lastRequestKey = some (requestKey pt a) ∧ now - s.lastRequestTs < 1200
  · rw [handleSend_dedup hdedup]
    exact ⟨by intro b hb; simp at hb, by simp [hc], Or.inl hc, rfl, rfl⟩
  · by_cases hguard : s.sending = true ∨ s.startupError ≠ ""
    · rw [handleSend_guard hdedup hguard]
      exact ⟨by intro b hb; simp at hb, by simp [hc], Or.inl hc, rfl, rfl⟩
    · have hsend : s.sending = false := by
        cases hb : s.sending
        · rfl
        · exact absurd (Or.inl hb) hguard
      have herr : s.startupError = "" := by
        by_contra hx
        exact hguard (Or.inr hx)
      have hcalls : ∀ b ∈ (sendChat cfg fetch (buildBody s.conversationId pt a)).2,
          b.conversationId = some c := by
        intro b hb
        rw [sendChat_calls_mem hb]
        show jsStr s.conversationId = some c
        rw [hc]
        exact jsStr_some hcne
      cases hr : (sendChat cfg fetch (buildBody s.conversationId pt a)).1 with
      | error e =>
          rw [handleSend_error_eq hdedup hsend herr hr]
          refine ⟨hcalls, ?_, Or.inl hc, rfl, rfl⟩
          show s.conversationId ≠ none
          rw [hc]
          simp
      | ok d =>
          rw [handleSend_ok_eq hdedup hsend herr hr]
          obtain ⟨status, bt, hf, _⟩ := sendChat_ok_inv hr
          by_cases hadopt : d.conversationId ≠ "" ∧
              (postGuardState s now pt a).conversationId ≠ some d.conversationId
          · have hval : (applySuccess (postGuardState s now pt a) d).conversationId =
                some d.conversationId := by
              rw [applySuccess_conversationId]
              unfold adoptConversationId
              rw [if_pos hadopt]
            have hne : d.conversationId ≠ c := by
              intro hdc
              exact hadopt.2 (by show s.conversationId = _; rw [hc, hdc])
            refine ⟨hcalls, ?_, Or.inr ⟨status, bt, d, hf, hadopt.1, hne, hval⟩, rfl, rfl⟩
            show (applySuccess (postGuardState s now pt a) d).conversationId ≠ none
            rw [hval]
            simp
          · have hval : (applySuccess (postGuardState s now pt a) d).conversationId =
                some c := by
              rw [applySuccess_conversationId]
              unfold adoptConversationId
              rw [if_neg hadopt]
              exact hc
            refine ⟨hcalls, ?_, Or.inl hval, rfl, rfl⟩
            show (applySuccess (postGuardState s now pt a) d).conversationId ≠ none
            rw [hval]
            simp

/-- Witness for the amended C2 at a session holding id c1. -/
theorem conversation_identity_amended_witness :
    (∀ b ∈ (handleSend cfg0 fetchC2 5000 sBase (some "hi") none).2,
      b.conversationId = some "c1") ∧
    (handleSend cfg0 fetchC2 5000 sBase (some "hi") none).1.conversationId ≠ none ∧
    ((handleSend cfg0 fetchC2 5000 sBase (some "hi") none).1.conversationId = some "c1" ∨
      (∃ status bt d,
        fetchC2 (buildBody sBase.conversationId (some "hi") none) = .response status bt d ∧
        d.conversationId ≠ "" ∧ d.conversationId ≠ "c1" ∧
        (handleSend cfg0 fetchC2 5000 sBase (some "hi") none).1.conversationId =
          some d.conversationId)) ∧
    (resetConversation (handleSend cfg0 fetchC2 5000 sBase (some "hi") none).1).conversationId =
      none ∧
    (resetConversation (handleSend cfg0 fetchC2 5000 sBase (some "hi") none).1).storedConversationId =
      none :=
  conversation_identity_amended cfg0 fetchC2 5000 sBase (some "hi") none "c1"
    rfl (by decide)

/-- Claim C4, evaluated at the failing input: the transcript ends in an
assistant message that carries suggestion chips, the user clicks the
submit-cuisines chip, and afterwards that assistant message still carries
its full suggestion list — the clear helper ran after the user echo was
appended, saw a user message last, and left the chips in place. -/
theorem stale_chips_not_cleared :
    sChips.messages.getLast? = some assistantPrompt ∧
    assistantPrompt.role = "assistant" ∧
    assistantPrompt.suggestions = some [cuisineChip, submitCuisinesChip] ∧
    (handleChipClick cfg0 fetchEmptyOk 5000 sChips (some submitCuisinesChip)).1.messages.head? =
      some assistantPrompt := by
  refine ⟨rfl, rfl, rfl, by decide⟩

/-- Claim C6 (client-only toggle): clicking a toggle chip never issues a
network call and never appends a transcript entry, and clicking it twice
with the same group and value restores the membership state of
pendingSelections for that group. -/
theorem toggle_client_only (cfg : Config) (fetch : RequestBody → FetchOutcome)
    (now now2 : Nat) (s : AppState) (title group value : String)
    (hg : group ≠ "") (hv : value ≠ "") :
    (handleChipClick cfg fetch now s (some (toggleChip title group value))).2 = [] ∧
    (handleChipClick cfg fetch now s (some (toggleChip title group value))).1.messages =
      s.messages ∧
    (handleChipClick cfg fetch now2
      (handleChipClick cfg fetch now s (some (toggleChip title group value))).1
      (some (toggleChip title group value))).2 = [] ∧
    (handleChipClick cfg fetch now2
      (handleChipClick cfg fetch now s (some (toggleChip title group value))).1
      (some (toggleChip title group value))).1.messages = s.messages ∧
    (∀ x, x ∈ lookupGroup (handleChipClick cfg fetch now2
        (handleChipClick cfg fetch now s (some (toggleChip title group value))).1
        (some (toggleChip title group value))).1.pendingSelections group ↔
      x ∈ lookupGroup s.pendingSelections group) := by
  by_cases hguard : s.sending = true ∨ s.startupError ≠ ""
  · have h1 : handleChipClick cfg fetch now s (some (toggleChip title group value)) =
        (s, []) := by
      unfold handleChipClick
      dsimp only
      rw [if_pos hguard]
    rw [h1]
    have h2 : handleChipClick cfg fetch now2 s (some (toggleChip title group value)) =
        (s, []) := by
      unfold handleChipClick
      dsimp only
      rw [if_pos hguard]
    rw [h2]
    exact ⟨rfl, rfl, rfl, rfl, fun x => Iff.rfl⟩
  · have h1 := chipClick_toggle_eq cfg fetch now s title hg hv hguard
    rw [h1]
    have h2 := chipClick_toggle_eq cfg fetch now2 ({ s with pendingSelections := toggleSelection s.pendingSelections group value }) title hg hv hguard
    rw [h2]
    exact ⟨rfl, rfl, rfl, rfl, fun x => mem_toggle_toggle s.pendingSelections group value x⟩

/-- Witness for C6: double-toggling Japanese on the cuisine group of a
session whose cuisine set holds Italian. -/
theorem toggle_client_only_witness :
    (handleChipClick cfg0 fetchEmptyOk 0 sChips (some (toggleChip "Japanese" "cuisine" "Japanese"))).2 = [] ∧
    (handleChipClick cfg0 fetchEmptyOk 0 sChips (some (toggleChip "Japanese" "cuisine" "Japanese"))).1.messages =
      sChips.messages ∧
    (handleChipClick cfg0 fetchEmptyOk 1
      (handleChipClick cfg0 fetchEmptyOk 0 sChips (some (toggleChip "Japanese" "cuisine" "Japanese"))).1
      (some (toggleChip "Japanese" "cuisine" "Japanese"))).2 = [] ∧
    (handleChipClick cfg0 fetchEmptyOk 1
      (handleChipClick cfg0 fetchEmptyOk 0 sChips (some (toggleChip "Japanese" "cuisine" "Japanese"))).1
      (some (toggleChip "Japanese" "cuisine" "Japanese"))).1.messages = sChips.messages ∧
    (∀ x, x ∈ lookupGroup (handleChipClick cfg0 fetchEmptyOk 1
        (handleChipClick cfg0 fetchEmptyOk 0 sChips (some (toggleChip "Japanese" "cuisine" "Japanese"))).1
        (some (toggleChip "Japanese" "cuisine" "Japanese"))).1.pendingSelections "cuisine" ↔
      x ∈ lookupGroup sChips.pendingSelections "cuisine") :=
  toggle_client_only cfg0 fetchEmptyOk 0 1 sChips "Japanese" "cuisine" "Japanese"
    (by decide) (by decide)

/-- Claim C7 (submit-cuisines): clicking the submit-cuisines chip echoes
one user entry with the joined cuisine list (or the no-preference text
when the set is empty), issues exactly one request whose action carries
type refine_set_cuisines and the selected list, and leaves the pending
cuisine set empty. -/
theorem submit_cuisines (cfg : Config) (fetch : RequestBody → FetchOutcome)
    (now : Nat) (s : AppState) (sg : Suggestion) (a0 : ChipAction)
    (ha : sg.action = some a0) (htype : a0.type = "submit_refine_cuisines")
    (hsend : s.sending = false) (herr : s.startupError = "")
    (hcfg : getConfigStatus cfg = [])
    (hdedup : ¬(s.lastRequestKey =
        some (requestKey none
          (some { type := "refine_set_cuisines", data := lookupGroup s.pendingSelections "cuisine" })) ∧
        now - s.lastRequestTs < 1200)) :
    (∃ rest, (handleChipClick cfg fetch now s (some sg)).1.messages =
      s.messages ++ ({ role := "user", text := (if (lookupGroup s.pendingSelections "cuisine").isEmpty then "No cuisine preference" else "Cuisines: " ++ String.intercalate ", " (lookupGroup s.pendingSelections "cuisine")), suggestions := none } :: rest)) ∧
    (handleChipClick cfg fetch now s (some sg)).2 =
      [buildBody s.conversationId none
        (some { type := "refine_set_cuisines", data := lookupGroup s.pendingSelections "cuisine" })] ∧
    lookupGroup (handleChipClick cfg fetch now s (some sg)).1.pendingSelections
      "cuisine" = [] := by
  have hguard : ¬(s.sending = true ∨ s.startupError ≠ "") := by
    simp [hsend, herr]
  rw [chipClick_submitCuisines_eq cfg fetch now s sg a0 ha htype hguard]
  dsimp only
  refine ⟨?_, ?_, ?_⟩
  · obtain ⟨rest, hmsg⟩ := handleSend_messages_decomp cfg fetch now ({ s with messages := clearChipsOnLastAssistant (addUserBubble s.messages (if (lookupGroup s.pendingSelections "cuisine").isEmpty then "No cuisine preference" else "Cuisines: " ++ String.intercalate ", " (lookupGroup s.pendingSelections "cuisine"))) }) none (some { type := "refine_set_cuisines", data := lookupGroup s.pendingSelections "cuisine" }) hdedup hsend herr
    refine ⟨rest, ?_⟩
    rw [hmsg]
    dsimp only [echoStep_none]
    rw [clearChips_addUserBubble]
    unfold addUserBubble
    rw [List.append_assoc, List.singleton_append]
  · rw [handleSend_calls_config cfg fetch now ({ s with messages := clearChipsOnLastAssistant (addUserBubble s.messages (if (lookupGroup s.pendingSelections "cuisine").isEmpty then "No cuisine preference" else "Cuisines: " ++ String.intercalate ", " (lookupGroup s.pendingSelections "cuisine"))) }) none (some { type := "refine_set_cuisines", data := lookupGroup s.pendingSelections "cuisine" }) hcfg hdedup hsend herr]
  · unfold clearSelections
    exact lookupGroup_setGroup_self _ _ _

/-- Witness for C7: submitting the cuisine set that holds Italian. -/
theorem submit_cuisines_witness :
    (∃ rest, (handleChipClick cfg0 fetchEmptyOk 5000 sChips (some submitCuisinesChip)).1.messages =
      sChips.messages ++ ({ role := "user", text := (if (lookupGroup sChips.pendingSelections "cuisine").isEmpty then "No cuisine preference" else "Cuisines: " ++ String.intercalate ", " (lookupGroup sChips.pendingSelections "cuisine")), suggestions := none } :: rest)) ∧
    (handleChipClick cfg0 fetchEmptyOk 5000 sChips (some submitCuisinesChip)).2 =
      [buildBody sChips.conversationId none
        (some { type := "refine_set_cuisines", data := lookupGroup sChips.pendingSelections "cuisine" })] ∧
    lookupGroup (handleChipClick cfg0 fetchEmptyOk 5000 sChips
      (some submitCuisinesChip)).1.pendingSelections "cuisine" = [] :=
  submit_cuisines cfg0 fetchEmptyOk 5000 sChips submitCuisinesChip
    { type := "submit_refine_cuisines" } rfl rfl rfl rfl (by decide) (by decide)

/-- Claim C8 (duplicate suppression): in the debounced variant, when the
same text-action pair is submitted again within 1.2 seconds, the second
call is a complete no-op — no state change, no request — so the pair
issues at most one network call and at most one user echo. -/
theorem duplicate_suppression (cfg : Config) (fetch : RequestBody → FetchOutcome)
    (t0 t1 : Nat) (s : AppState) (pt : Option String) (a : Option ChipAction)
    (hfirst : ¬(s.lastRequestKey = some (requestKey pt a) ∧ t0 - s.lastRequestTs < 1200))
    (hwin : t1 - t0 < 1200)
    (hor : oracleNoUserMsgs fetch) :
    handleSend cfg fetch t1 (handleSend cfg fetch t0 s pt a).1 pt a =
      ((handleSend cfg fetch t0 s pt a).1, []) ∧
    ((handleSend cfg fetch t0 s pt a).2 ++
      (handleSend cfg fetch t1 (handleSend cfg fetch t0 s pt a).1 pt a).2).length ≤ 1 ∧
    userCount (handleSend cfg fetch t1
      (handleSend cfg fetch t0 s pt a).1 pt a).1.messages ≤
      userCount s.messages + 1 := by
  obtain ⟨hk, hts⟩ := handleSend_lastRequest cfg fetch t0 s pt a hfirst
  have hsupp : handleSend cfg fetch t1 (handleSend cfg fetch t0 s pt a).1 pt a =
      ((handleSend cfg fetch t0 s pt a).1, []) :=
    handleSend_dedup ⟨hk, by rw [hts]; exact hwin⟩
  refine ⟨hsupp, ?_, ?_⟩
  · rw [hsupp]
    simpa using handleSend_calls_le cfg fetch t0 s pt a
  · rw [hsupp]
    exact le_trans (userCount_handleSend_le cfg fetch t0 s pt a hor)
      (userCount_echoStep_le s.messages pt)

/-- Witness for C8: the same typed text resubmitted 0.6 seconds later. -/
theorem duplicate_suppression_witness :
    handleSend cfg0 fetchEmptyOk 5600
      (handleSend cfg0 fetchEmptyOk 5000 sBase (some "hello") none).1 (some "hello") none =
      ((handleSend cfg0 fetchEmptyOk 5000 sBase (some "hello") none).1, []) ∧
    ((handleSend cfg0 fetchEmptyOk 5000 sBase (some "hello") none).2 ++
      (handleSend cfg0 fetchEmptyOk 5600
        (handleSend cfg0 fetchEmptyOk 5000 sBase (some "hello") none).1
        (some "hello") none).2).length ≤ 1 ∧
    userCount (handleSend cfg0 fetchEmptyOk 5600
      (handleSend cfg0 fetchEmptyOk 5000 sBase (some "hello") none).1
      (some "hello") none).1.messages ≤ userCount sBase.messages + 1 :=
  duplicate_suppression cfg0 fetchEmptyOk 5000 5600 sBase (some "hello") none
    (by decide) (by decide) fetchEmptyOk_no_user

/-- Claim C1 (single-flight guard): while sending is true every trigger —
typed submit, chip click, auto-greeting — leaves the state unchanged and
issues no request; and any trigger issues at most one request and adds at
most one user echo to the transcript. -/
theorem single_flight (cfg : Config) (fetch : RequestBody → FetchOutcome)
    (now : Nat) (s : AppState) (tr : Trigger) :
    (s.sending = true → dispatch cfg fetch now s tr = (s, [])) ∧
    (dispatch cfg fetch now s tr).2.length ≤ 1 ∧
    (oracleNoUserMsgs fetch →
      userCount (dispatch cfg fetch now s tr).1.messages ≤
        userCount s.messages + 1) := by
  cases tr with
  | typedSubmit =>
      refine ⟨?_, ?_, ?_⟩
      · intro hs
        unfold dispatch
        rw [if_pos (Or.inl hs)]
      · unfold dispatch
        by_cases h1 : s.sending = true ∨ s.startupError ≠ ""
        · rw [if_pos h1]
          simp
        · rw [if_neg h1]
          by_cases h2 : s.text.trim = ""
          · rw [if_pos h2]
            simp
          · rw [if_neg h2]
            dsimp only
            exact handleSend_calls_le cfg fetch now _ _ _
      · intro hor
        unfold dispatch
        by_cases h1 : s.sending = true ∨ s.startupError ≠ ""
        · rw [if_pos h1]
          exact Nat.le_succ _
        · rw [if_neg h1]
          by_cases h2 : s.text.trim = ""
          · rw [if_pos h2]
            exact Nat.le_succ _
          · rw [if_neg h2]
            dsimp only
            rw [clearChips_addUserBubble]
            have hle := userCount_handleSend_le cfg fetch now ({ s with messages := addUserBubble s.messages s.text.trim }) (some s.text.trim) none hor
            dsimp only at hle
            rw [echoStep_addUserBubble s.messages h2] at hle
            refine le_trans hle ?_
            rw [userCount_addUserBubble]
  | chipClick sugg =>
      refine ⟨?_, handleChipClick_calls_le cfg fetch now s sugg,
        fun hor => handleChipClick_userCount_le cfg fetch now s sugg hor⟩
      intro hs
      cases sugg with
      | none => rfl
      | some sg =>
          show handleChipClick cfg fetch now s (some sg) = (s, [])
          unfold handleChipClick
          dsimp only
          rw [if_pos (Or.inl hs)]
  | autoGreeting =>
      refine ⟨?_, ?_, fun hor => ?_⟩
      · intro hs
        unfold dispatch
        dsimp only
        split
        · exact handleSendLegacy_guard (Or.inl hs)
        · rfl
      · unfold dispatch
        dsimp only
        split
        · exact handleSendLegacy_calls_le cfg fetch s none none
        · simp
      · unfold dispatch
        dsimp only
        split
        · exact le_trans (userCount_handleSendLegacy_none cfg fetch s hor) (Nat.le_succ _)
        · exact Nat.le_succ _

/-- Witness for C1: a chip click arriving while a request is outstanding
is dropped whole. -/
theorem single_flight_witness :
    dispatch cfg0 fetchEmptyOk 0 sBusy (.chipClick (some cuisineChip)) = (sBusy, []) ∧
    (dispatch cfg0 fetchEmptyOk 0 sBusy (.chipClick (some cuisineChip))).2.length ≤ 1 ∧
    userCount (dispatch cfg0 fetchEmptyOk 0 sBusy
      (.chipClick (some cuisineChip))).1.messages ≤ userCount sBusy.messages + 1 :=
  ⟨(single_flight cfg0 fetchEmptyOk 0 sBusy (.chipClick (some cuisineChip))).1 rfl,
   (single_flight cfg0 fetchEmptyOk 0 sBusy (.chipClick (some cuisineChip))).2.1,
   (single_flight cfg0 fetchEmptyOk 0 sBusy (.chipClick (some cuisineChip))).2.2
     fetchEmptyOk_no_user⟩

end Rezervo
